import Mathlib

/-!
Verification development for the Al-Nassr VIP cards service
(`netlify/functions/api.js`, with a matching Express variant in the same
repository).  The service keeps three pieces of in-memory state — an order
map, a redeem-code map and a catalog of players — and exposes HTTP handlers
that create payments/invoices, process payment-gateway webhooks (IPN) and
redeem one-time codes.  Below, each handler branch of the source is embedded
as a pure Lean function over an explicit state; outbound gateway calls and
the HMAC primitive from node's `crypto` are external collaborators and enter
as parameters.
-/

namespace Alnassr

/-- A scalar JSON value as produced by `JSON.parse` (nested objects are not
needed by any handler branch modelled here; webhook payloads are flat). -/
inductive Jval where
  | str (s : String)
  | num (n : Int)
  | jbool (b : Bool)
  | null
deriving DecidableEq

/-- A JSON object: key/value pairs in insertion order. -/
def Jobj : Type := List (String × Jval)

instance : DecidableEq Jobj := by
  unfold Jobj
  infer_instance

/-- JavaScript truthiness of a JSON scalar (`""`, `0`, `false`, `null` are
falsy). -/
def Jval.truthy : Jval → Bool
  | .str s => s ≠ ""
  | .num n => n ≠ 0
  | .jbool b => b
  | .null => false

/-- Field access `obj[key]` on a parsed JSON object; `none` models the
JavaScript `undefined` for an absent key. -/
def getField (o : Jobj) (k : String) : Option Jval :=
  (List.find? (fun p => p.1 == k) o).map Prod.snd

/-- `Map.prototype.get`-style lookup in a string-keyed association list
(the in-memory `orders` and `redeemCodes` maps; a `Map` holds at most one
entry per key). -/
def findVal : List (String × α) → String → Option α
  | [], _ => none
  | p :: m, k => if p.1 = k then some p.2 else findVal m k

/-- `Map.prototype.set` / in-place record mutation: update the entry at `k`
if present (keeping its position), otherwise append the new entry. -/
def setVal : List (String × α) → String → α → List (String × α)
  | [], k, v => [(k, v)]
  | p :: m, k, v => if p.1 = k then (k, v) :: m else p :: setVal m k v

/-- Escape one character as `JSON.stringify` does for the characters that
occur in the payloads modelled here. -/
def jsonEscapeChar (c : Char) : String :=
  if c = '\x22' then "\\\x22"
  else if c = '\\' then "\\\\"
  else if c = '\n' then "\\n"
  else if c = '\t' then "\\t"
  else if c = '\r' then "\\r"
  else String.singleton c

/-- `JSON.stringify` of a string. -/
def jsonString (s : String) : String :=
  "\x22" ++ String.join (s.toList.map jsonEscapeChar) ++ "\x22"

/-- `JSON.stringify` of a scalar value. -/
def Jval.render : Jval → String
  | .str s => jsonString s
  | .num n => toString n
  | .jbool b => if b then "true" else "false"
  | .null => "null"

/-- `JSON.stringify` of an object, keys in the list's order. -/
def renderObj (o : Jobj) : String :=
  "\x7b" ++ String.intercalate ","
    (o.map (fun p => jsonString p.1 ++ ":" ++ p.2.render)) ++ "\x7d"

/-- Lexicographic code-unit comparison on char lists — the default
`Array.prototype.sort` string order (the payload keys here are ASCII, where
code-unit and codepoint order agree). -/
def charListLe : List Char → List Char → Bool
  | [], _ => true
  | _ :: _, [] => false
  | a :: as, b :: bs =>
    if a.toNat < b.toNat then true
    else if b.toNat < a.toNat then false
    else charListLe as bs

/-- `a <= b` in the sort order of `Object.keys(payload).sort()`. -/
def keyLe (a b : String) : Bool :=
  charListLe a.data b.data

/-- Insert a pair into a key-sorted list (helper for `sortByKey`). -/
def insertByKey (p : String × Jval) : List (String × Jval) → List (String × Jval)
  | [] => [p]
  | q :: rest =>
    if keyLe p.1 q.1 then p :: q :: rest else q :: insertByKey p rest

/-- `Object.keys(payload).sort().reduce(...)` — rebuild the payload object
with its keys in ascending lexicographic order. -/
def sortByKey : Jobj → Jobj
  | [] => []
  | p :: rest => insertByKey p (sortByKey rest)

/-- The exact byte string the webhook handler feeds to the HMAC:
`JSON.stringify` of the payload with keys sorted. -/
def sortedPayloadString (payload : Jobj) : String :=
  renderObj (sortByKey payload)

-- ============================================
-- Data model
-- ============================================

/-- A catalog entry from the `players` array.  The source stores `btc` as a
decimal number (e.g. `0.75`); it is carried here in hundredths, and no
handler branch reads it. -/
structure Player where
  id : Nat
  name : String
  nameEn : String
  price : Nat
  btcHundredths : Nat
  sold : Bool
deriving DecidableEq

/-- A record of the `redeemCodes` map.  `txId` and `email` do not exist on
the seeded records and are added on redemption, hence `Option`. -/
structure RedeemRecord where
  playerId : Nat
  playerName : String
  playerNameEn : String
  sats : Nat
  redeemed : Bool
  redeemedAt : Option String
  redeemedTo : Option String
  txId : Option String := none
  email : Option String := none
deriving DecidableEq

/-- A record of the `orders` map.  Fields that the payment flow sets but the
invoice flow does not (and vice versa) are `Option`; `status` is `Option`
because a webhook assigns `payload.payment_status` unconditionally, which is
`undefined` when the field is absent. -/
structure Order where
  orderId : String
  playerId : Nat
  playerName : String
  priceAmount : Nat
  payCurrency : Option String := none
  payAmount : Option Jval := none
  payAddress : Option Jval := none
  paymentId : Option Jval := none
  invoiceId : Option Jval := none
  invoiceUrl : Option Jval := none
  status : Option Jval
  redeemOption : Option Jval
  customer : Option Jobj
  actuallyPaid : Option Jval := none
  createdAt : String
deriving DecidableEq

/-- The three module-level mutable stores. -/
structure SysState where
  orders : List (String × Order)
  redeemCodes : List (String × RedeemRecord)
  players : List Player
deriving DecidableEq

/-- The seeded `redeemCodes` map. -/
def initRedeemCodes : List (String × RedeemRecord) :=
  [ ("NASSR-R7CR-GOLD-2025",
      { playerId := 1, playerName := "كريستيانو رونالدو",
        playerNameEn := "Cristiano Ronaldo", sats := 5200000,
        redeemed := false, redeemedAt := none, redeemedTo := none }),
    ("NASSR-MANE-STAR-2025",
      { playerId := 2, playerName := "ساديو ماني",
        playerNameEn := "Sadio Mané", sats := 3600000,
        redeemed := false, redeemedAt := none, redeemedTo := none }),
    ("NASSR-LAPO-DFND-2025",
      { playerId := 3, playerName := "ايمريك لابورت",
        playerNameEn := "Aymeric Laporte", sats := 2700000,
        redeemed := false, redeemedAt := none, redeemedTo := none }),
    ("NASSR-BROZ-MIDX-2025",
      { playerId := 4, playerName := "مارسيلو بروزوفيتش",
        playerNameEn := "Marcelo Brozović", sats := 2100000,
        redeemed := false, redeemedAt := none, redeemedTo := none }),
    ("NASSR-TELL-WING-2025",
      { playerId := 5, playerName := "أليكس تيليس",
        playerNameEn := "Alex Telles", sats := 1600000,
        redeemed := false, redeemedAt := none, redeemedTo := none }),
    ("NASSR-FOFA-POWR-2025",
      { playerId := 6, playerName := "سيكو فوفانا",
        playerNameEn := "Seko Fofana", sats := 1100000,
        redeemed := false, redeemedAt := none, redeemedTo := none }) ]

/-- The seeded `players` array. -/
def initPlayers : List Player :=
  [ { id := 1, name := "كريستيانو رونالدو", nameEn := "Cristiano Ronaldo",
      price := 189999, btcHundredths := 75, sold := false },
    { id := 2, name := "ساديو ماني", nameEn := "Sadio Mané",
      price := 129999, btcHundredths := 52, sold := false },
    { id := 3, name := "ايمريك لابورت", nameEn := "Aymeric Laporte",
      price := 99999, btcHundredths := 27, sold := true },
    { id := 4, name := "مارسيلو بروزوفيتش", nameEn := "Marcelo Brozović",
      price := 74999, btcHundredths := 21, sold := false },
    { id := 5, name := "أليكس تيليس", nameEn := "Alex Telles",
      price := 59999, btcHundredths := 16, sold := true },
    { id := 6, name := "سيكو فوفانا", nameEn := "Seko Fofana",
      price := 39999, btcHundredths := 11, sold := false } ]

/-- The state at process start: empty order map, seeded codes and players. -/
def initState : SysState :=
  { orders := [], redeemCodes := initRedeemCodes, players := initPlayers }

-- ============================================
-- POST /api/redeem
-- ============================================

/-- The whitespace characters `String.prototype.trim` strips (ASCII subset;
exotic Unicode spaces are not modelled). -/
def isJsSpace (c : Char) : Bool :=
  c = ' ' ∨ c = '\t' ∨ c = '\n' ∨ c = '\r' ∨ c = '\x0b' ∨ c = '\x0c'

/-- `String.prototype.trim`: drop leading and trailing whitespace. -/
def jsTrim (s : String) : String :=
  String.mk (((s.data.dropWhile isJsSpace).reverse.dropWhile isJsSpace).reverse)

/-- `String.prototype.toUpperCase` (the seeded keys and generated hex are
ASCII, so ASCII case-mapping is exact). -/
def jsToUpper (s : String) : String :=
  String.mk (s.data.map Char.toUpper)

/-- `code.toUpperCase().trim()` — uppercase first, then strip surrounding
whitespace. -/
def normalizeCode (s : String) : String :=
  jsTrim (jsToUpper s)

/-- The request body of `POST /api/redeem`; an absent `code` or
`lightningAddress` behaves like the empty string (both are falsy). -/
structure RedeemCall where
  code : String
  lightningAddress : String
  email : Option String
deriving DecidableEq

/-- The semantic outcome of `POST /api/redeem`. -/
inductive RedeemResult where
  | badRequest
  | notFound
  | alreadyRedeemed (redeemedAt : Option String)
  | success (playerName : String) (sats : Nat)
      (lightningAddress : String) (txId : String) (redeemedAt : String)
deriving DecidableEq

/-- HTTP status code of each `POST /api/redeem` outcome. -/
def RedeemResult.statusCode : RedeemResult → Nat
  | .badRequest => 400
  | .notFound => 404
  | .alreadyRedeemed _ => 400
  | .success _ _ _ _ _ => 200

def RedeemResult.isSuccess : RedeemResult → Bool
  | .success _ _ _ _ _ => true
  | _ => false

/-- `codeData.email = email || null`: a falsy email is stored as `null`. -/
def emailOrNull : Option String → Option String
  | some s => if s = "" then none else some s
  | none => none

/-- The transaction id receipt:
`` `LN-${Date.now()}-${crypto.randomBytes(4).toString("hex").toUpperCase()}` ``.
`now` is `Date.now()` and `randHex` the random hex string, both external
inputs. -/
def mkTxId (now : Nat) (randHex : String) : String :=
  "LN-" ++ toString now ++ "-" ++ jsToUpper randHex

/-- The `POST /api/redeem` handler body.  `now`/`nowIso`/`randHex` stand for
`Date.now()`, `new Date().toISOString()` and `crypto.randomBytes(4)`. -/
def redeemPost (codes : List (String × RedeemRecord)) (call : RedeemCall)
    (now : Nat) (nowIso : String) (randHex : String) :
    RedeemResult × List (String × RedeemRecord) :=
  if call.code = "" ∨ call.lightningAddress = "" then
    (.badRequest, codes)
  else
    let normalizedCode := normalizeCode call.code
    match findVal codes normalizedCode with
    | none => (.notFound, codes)
    | some codeData =>
      if codeData.redeemed then
        (.alreadyRedeemed codeData.redeemedAt, codes)
      else
        let txId := mkTxId now randHex
        let codeData' : RedeemRecord :=
          { codeData with
            redeemed := true
            redeemedAt := some nowIso
            redeemedTo := some call.lightningAddress
            txId := some txId
            email := emailOrNull call.email }
        (.success codeData.playerName codeData.sats call.lightningAddress
           txId nowIso,
         setVal codes normalizedCode codeData')

-- ============================================
-- GET /api/redeem/:code
-- ============================================

/-- A generic JSON HTTP response (status code plus body object). -/
structure HttpResp where
  statusCode : Nat
  body : Jobj
deriving DecidableEq

/-- The `GET /api/redeem/:code` handler (identical in the Netlify and
Express variants): normalize, look up, and expose only `playerName`,
`sats` and `redeemed`. -/
def getRedeemStatus (st : SysState) (rawCode : String) : HttpResp × SysState :=
  let code := normalizeCode rawCode
  match findVal st.redeemCodes code with
  | none => ({ statusCode := 404, body := [("error", .str "Code not found")] }, st)
  | some codeData =>
    ({ statusCode := 200,
       body := [("playerName", .str codeData.playerName),
                ("sats", .num (Int.ofNat codeData.sats)),
                ("redeemed", .jbool codeData.redeemed)] }, st)

-- ============================================
-- POST /api/ipn
-- ============================================

/-- The webhook handler's acknowledgement. -/
inductive IpnResult where
  | invalidSignature
  | ack
deriving DecidableEq

/-- HTTP status code of each `POST /api/ipn` outcome (`ack` responds
`200 {success: true}`). -/
def IpnResult.statusCode : IpnResult → Nat
  | .invalidSignature => 400
  | .ack => 200

/-- The string key used against the `orders` map: `payload.order_id`.  The
map is keyed by strings, so an absent or non-string `order_id` matches no
entry; both are folded into `none`. -/
def orderKey (payload : Jobj) : Option String :=
  match getField payload "order_id" with
  | some (.str s) => some s
  | _ => none

/-- `payment_status === "confirmed" || payment_status === "finished"`. -/
def isTerminalStatus (v : Option Jval) : Bool :=
  v = some (Jval.str "confirmed") ∨ v = some (Jval.str "finished")

/-- `players.find(p => p.id === pid)`, then `player.sold = true` on the
first match (the source mutates only the object `find` returned). -/
def markSoldFirst : List Player → Nat → List Player
  | [], _ => []
  | p :: ps, pid =>
    if p.id = pid then { p with sold := true } :: ps
    else p :: markSoldFirst ps pid

/-- The state effect of an accepted webhook: overwrite `status` and
`actuallyPaid` of the targeted order if it exists, and mark the card sold
when the delivered status is terminal. -/
def applyIpn (payload : Jobj) (st : SysState) : SysState :=
  match orderKey payload with
  | none => st
  | some oid =>
    match findVal st.orders oid with
    | none => st
    | some order =>
      let pstat := getField payload "payment_status"
      let order' := { order with
        status := pstat
        actuallyPaid := getField payload "actually_paid" }
      let orders' := setVal st.orders oid order'
      if isTerminalStatus pstat then
        { st with orders := orders',
                  players := markSoldFirst st.players order.playerId }
      else
        { st with orders := orders' }

/-- The signature check of `POST /api/ipn`:  the header must equal the hex
HMAC-SHA512, keyed by the secret, of the sorted-key serialization of the
payload.  `hmac secret msg` stands for
`crypto.createHmac("sha512", secret).update(msg).digest("hex")`, an external
primitive.  A missing header (`none`) never equals the computed hex string. -/
def verifyIpnSig (secret : String) (hmac : String → String → String)
    (receivedSig : Option String) (payload : Jobj) : Bool :=
  receivedSig = some (hmac secret (sortedPayloadString payload))

/-- The `POST /api/ipn` handler: verify the signature when a secret is
configured (a falsy secret — unset or empty — skips verification), then
apply the update and acknowledge. -/
def ipnPost (secret : String) (hmac : String → String → String)
    (receivedSig : Option String) (payload : Jobj) (st : SysState) :
    IpnResult × SysState :=
  if secret ≠ "" then
    if verifyIpnSig secret hmac receivedSig payload then
      (.ack, applyIpn payload st)
    else
      (.invalidSignature, st)
  else
    (.ack, applyIpn payload st)

-- ============================================
-- POST /api/create-payment and POST /api/create-invoice
-- ============================================

/-- The fields of a successful `POST /payment` gateway response that the
handler reads. -/
structure PaymentData where
  pay_amount : Jval
  pay_address : Jval
  payment_id : Jval
  payment_status : Jval
  expiration_estimate_date : Jval
deriving DecidableEq

/-- The fields of a successful `POST /invoice` gateway response that the
handler reads. -/
structure InvoiceData where
  id : Jval
  invoice_url : Jval
deriving DecidableEq

/-- Outcome of the outbound `nowpaymentsRequest` call: the parsed response
on success, or a thrown error (missing key, network, bad JSON, non-2xx). -/
inductive GatewayResult (α : Type) where
  | ok (data : α)
  | err (msg : String)
deriving DecidableEq

/-- `` `NASSR-${Date.now()}-${player.id}` ``. -/
def mkOrderId (now : Nat) (playerId : Nat) : String :=
  "NASSR-" ++ toString now ++ "-" ++ toString playerId

/-- `players.find(p => p.id === playerId)` where `playerId` is the raw body
field: strict equality holds only for a number equal to the id. -/
def findPlayerByBody (ps : List Player) (playerId : Option Jval) : Option Player :=
  match playerId with
  | some (.num n) => ps.find? (fun p => (p.id : Int) == n)
  | _ => none

/-- `!currency` on the body field. -/
def currencyMissing : Option String → Bool
  | none => true
  | some s => s = ""

/-- `!customer || !customer.email`. -/
def customerEmailMissing (customer : Option Jobj) : Bool :=
  match customer with
  | none => true
  | some c =>
    match getField c "email" with
    | none => true
    | some v => ¬ v.truthy

/-- Outcome of `POST /api/create-payment` / `POST /api/create-invoice`. -/
inductive CreateResult where
  | cardNotFound
  | alreadySold
  | missingCurrency
  | missingEmail
  | gatewayFailure (msg : String)
  | created (orderId : String)
deriving DecidableEq

/-- HTTP status code of each creation outcome (a thrown gateway error is
caught and surfaced as 500). -/
def CreateResult.statusCode : CreateResult → Nat
  | .cardNotFound => 404
  | .alreadySold => 400
  | .missingCurrency => 400
  | .missingEmail => 400
  | .gatewayFailure _ => 500
  | .created _ => 200

/-- The JSON error message of each non-created outcome. -/
def CreateResult.errorMessage : CreateResult → Option String
  | .cardNotFound => some "Card not found"
  | .alreadySold => some "Card already sold"
  | .missingCurrency => some "Currency is required"
  | .missingEmail => some "Customer email is required"
  | .gatewayFailure msg => some msg
  | .created _ => none

/-- The order record stored by the payment flow. -/
def mkPaymentOrder (orderId : String) (player : Player)
    (currency : String) (redeemOption : Option Jval) (customer : Option Jobj)
    (pd : PaymentData) (nowIso : String) : Order :=
  { orderId := orderId
    playerId := player.id
    playerName := player.nameEn
    priceAmount := player.price
    payCurrency := some currency
    payAmount := some pd.pay_amount
    payAddress := some pd.pay_address
    paymentId := some pd.payment_id
    status := some pd.payment_status
    redeemOption := redeemOption
    customer := customer
    createdAt := nowIso }

/-- The order record stored by the invoice flow (initial status `waiting`). -/
def mkInvoiceOrder (orderId : String) (player : Player)
    (redeemOption : Option Jval) (customer : Option Jobj)
    (inv : InvoiceData) (nowIso : String) : Order :=
  { orderId := orderId
    playerId := player.id
    playerName := player.nameEn
    priceAmount := player.price
    invoiceId := some inv.id
    invoiceUrl := some inv.invoice_url
    status := some (Jval.str "waiting")
    redeemOption := redeemOption
    customer := customer
    createdAt := nowIso }

/-- The `POST /api/create-payment` handler: validate, call the gateway, and
store the order on success.  The third component records whether the
outbound gateway call was issued. -/
def createPayment (st : SysState) (now : Nat) (nowIso : String)
    (playerId : Option Jval) (currency : Option String)
    (redeemOption : Option Jval) (customer : Option Jobj)
    (gateway : GatewayResult PaymentData) :
    CreateResult × SysState × Bool :=
  match findPlayerByBody st.players playerId with
  | none => (.cardNotFound, st, false)
  | some player =>
    if player.sold then (.alreadySold, st, false)
    else if currencyMissing currency then (.missingCurrency, st, false)
    else if customerEmailMissing customer then (.missingEmail, st, false)
    else
      let orderId := mkOrderId now player.id
      match gateway with
      | .err msg => (.gatewayFailure msg, st, true)
      | .ok pd =>
        let order := mkPaymentOrder orderId player
          (currency.getD "") redeemOption customer pd nowIso
        (.created orderId,
         { st with orders := setVal st.orders orderId order }, true)

/-- The `POST /api/create-invoice` handler (no currency/email validation in
the source). -/
def createInvoice (st : SysState) (now : Nat) (nowIso : String)
    (playerId : Option Jval) (redeemOption : Option Jval)
    (customer : Option Jobj) (gateway : GatewayResult InvoiceData) :
    CreateResult × SysState × Bool :=
  match findPlayerByBody st.players playerId with
  | none => (.cardNotFound, st, false)
  | some player =>
    if player.sold then (.alreadySold, st, false)
    else
      let orderId := mkOrderId now player.id
      match gateway with
      | .err msg => (.gatewayFailure msg, st, true)
      | .ok inv =>
        let order := mkInvoiceOrder orderId player redeemOption customer
          inv nowIso
        (.created orderId,
         { st with orders := setVal st.orders orderId order }, true)

-- ============================================
-- Whole-system operations (for reachability / invariants)
-- ============================================

/-- One argument bundle for a `POST /api/redeem` request. -/
structure RedeemInvocation where
  call : RedeemCall
  now : Nat
  nowIso : String
  randHex : String
deriving DecidableEq

/-- One inbound request, with the external inputs (clock, randomness,
gateway response, HMAC primitive) it consumed.  `opGetOrder` and
`opGetCards` model `GET /api/order/:orderId` and `GET /api/cards`, which
read the maps and respond without mutating anything (api.js 433-439,
278-281); the remaining GET endpoints are gateway passthroughs that touch
no store. -/
inductive Op where
  | opCreatePayment (now : Nat) (nowIso : String) (playerId : Option Jval)
      (currency : Option String) (redeemOption : Option Jval)
      (customer : Option Jobj) (gateway : GatewayResult PaymentData)
  | opCreateInvoice (now : Nat) (nowIso : String) (playerId : Option Jval)
      (redeemOption : Option Jval) (customer : Option Jobj)
      (gateway : GatewayResult InvoiceData)
  | opIpn (secret : String) (hmac : String → String → String)
      (receivedSig : Option String) (payload : Jobj)
  | opRedeem (inv : RedeemInvocation)
  | opGetRedeem (rawCode : String)
  | opGetOrder (oid : String)
  | opGetCards

/-- The state transition of one request. -/
def step (st : SysState) : Op → SysState
  | .opCreatePayment now nowIso pid cur ro cust gw =>
    (createPayment st now nowIso pid cur ro cust gw).2.1
  | .opCreateInvoice now nowIso pid ro cust gw =>
    (createInvoice st now nowIso pid ro cust gw).2.1
  | .opIpn secret hmac sig payload =>
    (ipnPost secret hmac sig payload st).2
  | .opRedeem inv =>
    { st with redeemCodes :=
        (redeemPost st.redeemCodes inv.call inv.now inv.nowIso inv.randHex).2 }
  | .opGetRedeem rawCode => (getRedeemStatus st rawCode).2
  | .opGetOrder _ => st
  | .opGetCards => st

/-- Run a sequence of requests. -/
def runOps (st : SysState) : List Op → SysState
  | [] => st
  | op :: rest => runOps (step st op) rest

/-- The `sold` flag of the first catalog entry with the given id
(`players.find(p => p.id === pid)`). -/
def soldOf : List Player → Nat → Option Bool
  | [], _ => none
  | p :: ps, pid => if p.id = pid then some p.sold else soldOf ps pid

/-- Run a sequence of redeem requests, recording each outcome with its
invocation. -/
def runRedeemCalls (codes : List (String × RedeemRecord)) :
    List RedeemInvocation →
    List (RedeemInvocation × RedeemResult) × List (String × RedeemRecord)
  | [] => ([], codes)
  | inv :: rest =>
    let r := redeemPost codes inv.call inv.now inv.nowIso inv.randHex
    let tail := runRedeemCalls r.2 rest
    ((inv, r.1) :: tail.1, tail.2)

/-- How many of the recorded outcomes are successful redemptions of the
code with normalized key `k`. -/
def successCountFor (k : String)
    (results : List (RedeemInvocation × RedeemResult)) : Nat :=
  results.countP (fun p =>
    (normalizeCode p.1.call.code == k) && p.2.isSuccess)

-- ============================================
-- Store lemmas
-- ============================================

theorem findVal_setVal_self (m : List (String × α)) (k : String) (v : α) :
    findVal (setVal m k v) k = some v := by
  induction m with
  | nil => simp [findVal, setVal]
  | cons p m ih =>
    by_cases h : p.1 = k
    · simp [setVal, findVal, h]
    · simp [setVal, findVal, h, ih]

theorem findVal_setVal_ne (m : List (String × α)) (k k' : String) (v : α)
    (h : k' ≠ k) : findVal (setVal m k' v) k = findVal m k := by
  induction m with
  | nil => simp [findVal, setVal, h]
  | cons p m ih =>
    by_cases hp : p.1 = k'
    · simp [setVal, findVal, hp, h]
    · simp [setVal, findVal, hp, ih]

theorem setVal_setVal_self (m : List (String × α)) (k : String) (v w : α) :
    setVal (setVal m k v) k w = setVal m k w := by
  induction m with
  | nil => simp [setVal]
  | cons p m ih =>
    by_cases h : p.1 = k
    · simp [setVal, h]
    · simp [setVal, h, ih]

theorem soldOf_markSoldFirst_mono (ps : List Player) (q pid : Nat)
    (h : soldOf ps pid = some true) :
    soldOf (markSoldFirst ps q) pid = some true := by
  induction ps with
  | nil => simp [soldOf] at h
  | cons p ps ih =>
    by_cases hq : p.id = q
    · subst hq
      by_cases hpid : p.id = pid
      · simp [markSoldFirst, soldOf, hpid]
      · simp [soldOf, hpid] at h
        simp [markSoldFirst, soldOf, hpid, h]
    · have hm : markSoldFirst (p :: ps) q = p :: markSoldFirst ps q := by
        simp [markSoldFirst, hq]
      rw [hm]
      by_cases hpid : p.id = pid
      · simp [soldOf, hpid] at h
        simp [soldOf, hpid, h]
      · simp [soldOf, hpid] at h
        simp [soldOf, hpid, ih h]

theorem markSoldFirst_idem (ps : List Player) (pid : Nat) :
    markSoldFirst (markSoldFirst ps pid) pid = markSoldFirst ps pid := by
  induction ps with
  | nil => simp [markSoldFirst]
  | cons p ps ih =>
    by_cases h : p.id = pid
    · simp [markSoldFirst, h]
    · simp [markSoldFirst, h, ih]

theorem soldOf_markSoldFirst_self (ps : List Player) (pid : Nat) (b : Bool)
    (h : soldOf ps pid = some b) :
    soldOf (markSoldFirst ps pid) pid = some true := by
  induction ps with
  | nil => simp [soldOf] at h
  | cons p ps ih =>
    by_cases hp : p.id = pid
    · simp [markSoldFirst, soldOf, hp]
    · simp [soldOf, hp] at h
      simp [markSoldFirst, soldOf, hp, ih h]

-- ============================================
-- redeemPost characterization lemmas
-- ============================================

/-- The updated record written by a successful redemption. -/
def redeemedRecord (d : RedeemRecord) (call : RedeemCall) (now : Nat)
    (nowIso : String) (randHex : String) : RedeemRecord :=
  { d with
    redeemed := true
    redeemedAt := some nowIso
    redeemedTo := some call.lightningAddress
    txId := some (mkTxId now randHex)
    email := emailOrNull call.email }

theorem redeemPost_badRequest (codes : List (String × RedeemRecord))
    (call : RedeemCall) (now : Nat) (nowIso randHex : String)
    (h : call.code = "" ∨ call.lightningAddress = "") :
    redeemPost codes call now nowIso randHex = (.badRequest, codes) := by
  simp [redeemPost, h]

theorem redeemPost_notFound (codes : List (String × RedeemRecord))
    (call : RedeemCall) (now : Nat) (nowIso randHex : String)
    (hc : call.code ≠ "") (ha : call.lightningAddress ≠ "")
    (hf : findVal codes (normalizeCode call.code) = none) :
    redeemPost codes call now nowIso randHex = (.notFound, codes) := by
  simp [redeemPost, hc, ha, hf]

theorem redeemPost_already (codes : List (String × RedeemRecord))
    (call : RedeemCall) (now : Nat) (nowIso randHex : String)
    (d : RedeemRecord)
    (hc : call.code ≠ "") (ha : call.lightningAddress ≠ "")
    (hf : findVal codes (normalizeCode call.code) = some d)
    (hr : d.redeemed = true) :
    redeemPost codes call now nowIso randHex =
      (.alreadyRedeemed d.redeemedAt, codes) := by
  simp [redeemPost, hc, ha, hf, hr]

theorem redeemPost_success (codes : List (String × RedeemRecord))
    (call : RedeemCall) (now : Nat) (nowIso randHex : String)
    (d : RedeemRecord)
    (hc : call.code ≠ "") (ha : call.lightningAddress ≠ "")
    (hf : findVal codes (normalizeCode call.code) = some d)
    (hr : d.redeemed = false) :
    redeemPost codes call now nowIso randHex =
      (.success d.playerName d.sats call.lightningAddress
         (mkTxId now randHex) nowIso,
       setVal codes (normalizeCode call.code)
         (redeemedRecord d call now nowIso randHex)) := by
  simp [redeemPost, redeemedRecord, hc, ha, hf, hr]

/-- A call's outcome is a success exactly when the inputs are non-empty and
the normalized code names an unredeemed record. -/
theorem redeemPost_success_iff (codes : List (String × RedeemRecord))
    (call : RedeemCall) (now : Nat) (nowIso randHex : String) :
    (redeemPost codes call now nowIso randHex).1.isSuccess = true ↔
      (call.code ≠ "" ∧ call.lightningAddress ≠ "" ∧
       ∃ d, findVal codes (normalizeCode call.code) = some d ∧
         d.redeemed = false) := by
  constructor
  · intro h
    by_cases hb : call.code = "" ∨ call.lightningAddress = ""
    · rw [redeemPost_badRequest codes call now nowIso randHex hb] at h
      simp [RedeemResult.isSuccess] at h
    · push_neg at hb
      obtain ⟨hc, ha⟩ := hb
      refine ⟨hc, ha, ?_⟩
      cases hf : findVal codes (normalizeCode call.code) with
      | none =>
        rw [redeemPost_notFound codes call now nowIso randHex hc ha hf] at h
        simp [RedeemResult.isSuccess] at h
      | some d =>
        cases hr : d.redeemed with
        | true =>
          rw [redeemPost_already codes call now nowIso randHex d hc ha hf hr] at h
          simp [RedeemResult.isSuccess] at h
        | false => exact ⟨d, rfl, hr⟩
  · rintro ⟨hc, ha, d, hf, hr⟩
    rw [redeemPost_success codes call now nowIso randHex d hc ha hf hr]
    simp [RedeemResult.isSuccess]

/-- After a successful call, the targeted record is redeemed. -/
theorem redeemPost_success_redeemed (codes : List (String × RedeemRecord))
    (call : RedeemCall) (now : Nat) (nowIso randHex : String)
    (h : (redeemPost codes call now nowIso randHex).1.isSuccess = true) :
    ∃ d, findVal (redeemPost codes call now nowIso randHex).2
        (normalizeCode call.code) = some d ∧ d.redeemed = true := by
  obtain ⟨hc, ha, d, hf, hr⟩ :=
    (redeemPost_success_iff codes call now nowIso randHex).1 h
  rw [redeemPost_success codes call now nowIso randHex d hc ha hf hr]
  refine ⟨redeemedRecord d call now nowIso randHex, ?_, rfl⟩
  exact findVal_setVal_self _ _ _

/-- A record that is redeemed stays redeemed (and untouched) across any
redeem call. -/
theorem redeemPost_keeps_redeemed (codes : List (String × RedeemRecord))
    (call : RedeemCall) (now : Nat) (nowIso randHex : String)
    (k : String) (d : RedeemRecord)
    (hf : findVal codes k = some d) (hr : d.redeemed = true) :
    findVal (redeemPost codes call now nowIso randHex).2 k = some d := by
  by_cases hb : call.code = "" ∨ call.lightningAddress = ""
  · rw [redeemPost_badRequest codes call now nowIso randHex hb]
    exact hf
  · push_neg at hb
    obtain ⟨hc, ha⟩ := hb
    cases hg : findVal codes (normalizeCode call.code) with
    | none =>
      rw [redeemPost_notFound codes call now nowIso randHex hc ha hg]
      exact hf
    | some e =>
      cases he : e.redeemed with
      | true =>
        rw [redeemPost_already codes call now nowIso randHex e hc ha hg he]
        exact hf
      | false =>
        rw [redeemPost_success codes call now nowIso randHex e hc ha hg he]
        have hne : normalizeCode call.code ≠ k := by
          intro hkk
          rw [hkk, hf] at hg
          cases hg
          rw [hr] at he
          cases he
        rw [findVal_setVal_ne _ _ _ _ hne]
        exact hf

/-- Once the record at `k` is redeemed, no later call in a sequence
succeeds on `k`. -/
theorem successCountFor_zero (invs : List RedeemInvocation)
    (codes : List (String × RedeemRecord)) (k : String) (d : RedeemRecord)
    (hf : findVal codes k = some d) (hr : d.redeemed = true) :
    successCountFor k (runRedeemCalls codes invs).1 = 0 := by
  induction invs generalizing codes d with
  | nil => simp [runRedeemCalls, successCountFor]
  | cons inv rest ih =>
    rw [runRedeemCalls]
    rw [successCountFor, List.countP_cons]
    have hzero : successCountFor k
        (runRedeemCalls (redeemPost codes inv.call inv.now inv.nowIso
          inv.randHex).2 rest).1 = 0 :=
      ih _ d (redeemPost_keeps_redeemed codes inv.call inv.now inv.nowIso
        inv.randHex k d hf hr) hr
    rw [successCountFor] at hzero
    rw [hzero]
    simp only [Nat.zero_add]
    by_cases hk : normalizeCode inv.call.code = k
    · have hns : (redeemPost codes inv.call inv.now inv.nowIso
          inv.randHex).1.isSuccess = false := by
        by_contra hcon
        rw [Bool.not_eq_false] at hcon
        obtain ⟨_, _, e, hg, he⟩ :=
          (redeemPost_success_iff codes inv.call inv.now inv.nowIso
            inv.randHex).1 hcon
        rw [hk, hf] at hg
        cases hg
        rw [hr] at he
        cases he
      simp [hns]
    · simp [hk]

/-- Across any sequence of redeem calls, at most one succeeds per code. -/
theorem successCountFor_le_one (invs : List RedeemInvocation)
    (codes : List (String × RedeemRecord)) (k : String) :
    successCountFor k (runRedeemCalls codes invs).1 ≤ 1 := by
  induction invs generalizing codes with
  | nil => simp [runRedeemCalls, successCountFor]
  | cons inv rest ih =>
    rw [runRedeemCalls, successCountFor, List.countP_cons]
    have tail := ih (redeemPost codes inv.call inv.now inv.nowIso inv.randHex).2
    rw [successCountFor] at tail
    by_cases hk : normalizeCode inv.call.code = k
    · by_cases hs : (redeemPost codes inv.call inv.now inv.nowIso
          inv.randHex).1.isSuccess = true
      · obtain ⟨d, hfd, hrd⟩ := redeemPost_success_redeemed codes inv.call
          inv.now inv.nowIso inv.randHex hs
        rw [hk] at hfd
        have hz := successCountFor_zero rest _ k d hfd hrd
        rw [successCountFor] at hz
        rw [hz]
        simp [hk, hs]
      · rw [Bool.not_eq_true] at hs
        simp only [hs, Bool.and_false, if_false, Nat.add_zero]
        exact tail
    · have hkb : (normalizeCode inv.call.code == k) = false := by
        simp [hk]
      simp only [hkb, Bool.false_and, if_false, Nat.add_zero]
      exact tail

-- ============================================
-- Concrete inputs used by the witnesses
-- ============================================

/-- The request of the redeem scenario: the Ronaldo code to
`x@getalby.com`. -/
def scenarioCall : RedeemCall :=
  { code := "NASSR-R7CR-GOLD-2025", lightningAddress := "x@getalby.com",
    email := none }

/-- The code store after redeeming the Ronaldo code once. -/
def codesAfterScenario : List (String × RedeemRecord) :=
  (redeemPost initRedeemCodes scenarioCall 1730000000000
    "2024-10-27T00:00:00.000Z" "9f3a21bc").2

/-- The Ronaldo record after that redemption. -/
def scenarioRecord : RedeemRecord :=
  { playerId := 1, playerName := "كريستيانو رونالدو",
    playerNameEn := "Cristiano Ronaldo", sats := 5200000,
    redeemed := true, redeemedAt := some "2024-10-27T00:00:00.000Z",
    redeemedTo := some "x@getalby.com",
    txId := some "LN-1730000000000-9F3A21BC", email := none }

-- ============================================
-- Claim theorems: redemption
-- ============================================

/-- C1: a redeem call on a code whose record is already redeemed fails with
`AlreadyRedeemed` (HTTP 400) carrying the prior `redeemedAt` and leaves the
store unchanged; consequently, across any sequence of redeem calls, at most
one call succeeds per code. -/
theorem redeem_single_use :
    (∀ (codes : List (String × RedeemRecord)) (call : RedeemCall) (now : Nat)
       (nowIso randHex : String) (d : RedeemRecord),
       call.code ≠ "" → call.lightningAddress ≠ "" →
       findVal codes (normalizeCode call.code) = some d → d.redeemed = true →
       redeemPost codes call now nowIso randHex =
         (.alreadyRedeemed d.redeemedAt, codes) ∧
       RedeemResult.statusCode (.alreadyRedeemed d.redeemedAt) = 400)
    ∧ (∀ (codes : List (String × RedeemRecord))
        (invs : List RedeemInvocation) (k : String),
        successCountFor k (runRedeemCalls codes invs).1 ≤ 1) := by
  constructor
  · intro codes call now nowIso randHex d hc ha hf hr
    exact ⟨redeemPost_already codes call now nowIso randHex d hc ha hf hr, rfl⟩
  · intro codes invs k
    exact successCountFor_le_one invs codes k

/-- Witness for C1 at concrete inputs: repeating the scenario call on the
post-redemption store yields `AlreadyRedeemed` with the original timestamp,
and a two-call sequence on the same code has at most one success. -/
theorem redeem_single_use_witness :
    redeemPost codesAfterScenario scenarioCall 1730000001000
        "2024-10-27T00:00:01.000Z" "abcd1234" =
      (.alreadyRedeemed (some "2024-10-27T00:00:00.000Z"),
       codesAfterScenario) ∧
    successCountFor "NASSR-R7CR-GOLD-2025"
      (runRedeemCalls initRedeemCodes
        [{ call := scenarioCall, now := 1, nowIso := "a", randHex := "bb" },
         { call := scenarioCall, now := 2, nowIso := "b", randHex := "cc" }]).1
      ≤ 1 := by
  constructor
  · exact (redeem_single_use.1 codesAfterScenario scenarioCall 1730000001000
      "2024-10-27T00:00:01.000Z" "abcd1234" scenarioRecord (by decide)
      (by decide) (by decide) (by decide)).1
  · exact redeem_single_use.2 initRedeemCodes
      [{ call := scenarioCall, now := 1, nowIso := "a", randHex := "bb" },
       { call := scenarioCall, now := 2, nowIso := "b", randHex := "cc" }]
      "NASSR-R7CR-GOLD-2025"

/-- C5: a redeem call on a present, unredeemed code with a destination
address succeeds: it atomically sets `redeemed`, `redeemedAt`, `redeemedTo`,
the generated transaction id (`LN-` prefix, timestamp, uppercased random hex)
and `email`, returns the record's sats and display name, and an immediately
repeated identical call yields `AlreadyRedeemed`. -/
theorem redeem_success_behavior :
    ∀ (codes : List (String × RedeemRecord)) (call : RedeemCall) (now : Nat)
      (nowIso randHex : String) (d : RedeemRecord),
      call.code ≠ "" → call.lightningAddress ≠ "" →
      findVal codes (normalizeCode call.code) = some d → d.redeemed = false →
      redeemPost codes call now nowIso randHex =
        (.success d.playerName d.sats call.lightningAddress
           ("LN-" ++ toString now ++ "-" ++ jsToUpper randHex) nowIso,
         setVal codes (normalizeCode call.code)
           { d with redeemed := true, redeemedAt := some nowIso,
                    redeemedTo := some call.lightningAddress,
                    txId := some ("LN-" ++ toString now ++ "-" ++
                      jsToUpper randHex),
                    email := emailOrNull call.email }) ∧
      (∀ (now2 : Nat) (nowIso2 rand2 : String),
        (redeemPost (redeemPost codes call now nowIso randHex).2 call now2
          nowIso2 rand2).1 = .alreadyRedeemed (some nowIso)) := by
  intro codes call now nowIso randHex d hc ha hf hr
  have hs := redeemPost_success codes call now nowIso randHex d hc ha hf hr
  constructor
  · rw [hs]
    rfl
  · intro now2 nowIso2 rand2
    rw [hs]
    have hf2 : findVal
        (setVal codes (normalizeCode call.code)
          (redeemedRecord d call now nowIso randHex))
        (normalizeCode call.code) =
        some (redeemedRecord d call now nowIso randHex) :=
      findVal_setVal_self _ _ _
    rw [redeemPost_already _ call now2 nowIso2 rand2 _ hc ha hf2 rfl]
    rfl

/-- Witness for C5: the spec's scenario — redeeming
`NASSR-R7CR-GOLD-2025` to `x@getalby.com` succeeds with sats 5200000, marks
the record redeemed, and repeating the call yields `AlreadyRedeemed`. -/
theorem redeem_success_behavior_witness :
    redeemPost initRedeemCodes scenarioCall 1730000000000
        "2024-10-27T00:00:00.000Z" "9f3a21bc" =
      (.success "كريستيانو رونالدو" 5200000 "x@getalby.com"
         "LN-1730000000000-9F3A21BC" "2024-10-27T00:00:00.000Z",
       codesAfterScenario) ∧
    (∀ (now2 : Nat) (nowIso2 rand2 : String),
      (redeemPost codesAfterScenario scenarioCall now2 nowIso2 rand2).1 =
        .alreadyRedeemed (some "2024-10-27T00:00:00.000Z")) := by
  have h := redeem_success_behavior initRedeemCodes scenarioCall
    1730000000000 "2024-10-27T00:00:00.000Z" "9f3a21bc"
    { playerId := 1, playerName := "كريستيانو رونالدو",
      playerNameEn := "Cristiano Ronaldo", sats := 5200000,
      redeemed := false, redeemedAt := none, redeemedTo := none }
    (by decide) (by decide) (by decide) (by decide)
  exact ⟨h.1, h.2⟩

/-- C6: both redeem endpoints resolve the code by normalizing (uppercase,
then trim) before the map lookup: a normalized miss yields `NotFound`
(HTTP 404) with all state unchanged, and a normalized hit resolves to the
stored record (so any casing/whitespace variant of a seeded code matches). -/
theorem redeem_code_normalization :
    (∀ (codes : List (String × RedeemRecord)) (call : RedeemCall) (now : Nat)
       (nowIso randHex : String),
       call.code ≠ "" → call.lightningAddress ≠ "" →
       findVal codes (normalizeCode call.code) = none →
       redeemPost codes call now nowIso randHex = (.notFound, codes) ∧
       RedeemResult.statusCode .notFound = 404)
    ∧ (∀ (st : SysState) (raw : String),
        findVal st.redeemCodes (normalizeCode raw) = none →
        getRedeemStatus st raw =
          ({ statusCode := 404,
             body := [("error", .str "Code not found")] }, st))
    ∧ (∀ (codes : List (String × RedeemRecord)) (call : RedeemCall)
        (now : Nat) (nowIso randHex : String) (d : RedeemRecord),
        findVal codes (normalizeCode call.code) = some d →
        (redeemPost codes call now nowIso randHex).1 ≠ .notFound)
    ∧ (∀ (st : SysState) (raw : String) (d : RedeemRecord),
        findVal st.redeemCodes (normalizeCode raw) = some d →
        (getRedeemStatus st raw).1 =
          { statusCode := 200,
            body := [("playerName", .str d.playerName),
                     ("sats", .num (Int.ofNat d.sats)),
                     ("redeemed", .jbool d.redeemed)] }) := by
  refine ⟨?_, ?_, ?_, ?_⟩
  · intro codes call now nowIso randHex hc ha hf
    exact ⟨redeemPost_notFound codes call now nowIso randHex hc ha hf, rfl⟩
  · intro st raw hf
    simp [getRedeemStatus, hf]
  · intro codes call now nowIso randHex d hf hcon
    by_cases hb : call.code = "" ∨ call.lightningAddress = ""
    · rw [redeemPost_badRequest codes call now nowIso randHex hb] at hcon
      cases hcon
    · push_neg at hb
      obtain ⟨hc, ha⟩ := hb
      cases hr : d.redeemed with
      | true =>
        rw [redeemPost_already codes call now nowIso randHex d hc ha hf hr]
          at hcon
        cases hcon
      | false =>
        rw [redeemPost_success codes call now nowIso randHex d hc ha hf hr]
          at hcon
        cases hcon
  · intro st raw d hf
    simp [getRedeemStatus, hf]

/-- Witness for C6: the lowercased, whitespace-padded variant
`" nassr-r7cr-gold-2025 "` resolves to the Ronaldo record, and the unknown
code `"NASSR-XXXX-YYYY-2025"` yields 404 / `NotFound` without touching
state. -/
theorem redeem_code_normalization_witness :
    (getRedeemStatus initState " nassr-r7cr-gold-2025 ").1 =
      { statusCode := 200,
        body := [("playerName", .str "كريستيانو رونالدو"),
                 ("sats", .num 5200000),
                 ("redeemed", .jbool false)] } ∧
    redeemPost initRedeemCodes
      { code := "NASSR-XXXX-YYYY-2025", lightningAddress := "x@getalby.com",
        email := none } 1 "a" "bb" = (.notFound, initRedeemCodes) ∧
    getRedeemStatus initState "NASSR-XXXX-YYYY-2025" =
      ({ statusCode := 404, body := [("error", .str "Code not found")] },
       initState) := by
  refine ⟨?_, ?_, ?_⟩
  · exact redeem_code_normalization.2.2.2 initState " nassr-r7cr-gold-2025 "
      { playerId := 1, playerName := "كريستيانو رونالدو",
        playerNameEn := "Cristiano Ronaldo", sats := 5200000,
        redeemed := false, redeemedAt := none, redeemedTo := none }
      (by decide)
  · exact (redeem_code_normalization.1 initRedeemCodes
      { code := "NASSR-XXXX-YYYY-2025", lightningAddress := "x@getalby.com",
        email := none } 1 "a" "bb" (by decide) (by decide) (by decide)).1
  · exact redeem_code_normalization.2.1 initState "NASSR-XXXX-YYYY-2025"
      (by decide)

/-- C10: the code-status endpoint never mutates state, and when the
normalized code exists its response carries exactly the keys `playerName`,
`sats` and `redeemed` — never `redeemedTo`, `redeemedAt`, `txId` or
`email`. -/
theorem get_redeem_frame :
    ∀ (st : SysState) (raw : String),
      (getRedeemStatus st raw).2 = st ∧
      (∀ d : RedeemRecord,
        findVal st.redeemCodes (normalizeCode raw) = some d →
        (getRedeemStatus st raw).1 =
          { statusCode := 200,
            body := [("playerName", .str d.playerName),
                     ("sats", .num (Int.ofNat d.sats)),
                     ("redeemed", .jbool d.redeemed)] } ∧
        ((getRedeemStatus st raw).1.body.map Prod.fst =
          ["playerName", "sats", "redeemed"]) ∧
        ∀ kk ∈ (getRedeemStatus st raw).1.body.map Prod.fst,
          kk ≠ "redeemedTo" ∧ kk ≠ "redeemedAt" ∧ kk ≠ "txId" ∧
          kk ≠ "email") := by
  intro st raw
  constructor
  · cases hf : findVal st.redeemCodes (normalizeCode raw) with
    | none => simp [getRedeemStatus, hf]
    | some d => simp [getRedeemStatus, hf]
  · intro d hf
    refine ⟨by simp [getRedeemStatus, hf], by simp [getRedeemStatus, hf], ?_⟩
    intro kk hkk
    simp [getRedeemStatus, hf] at hkk
    rcases hkk with h | h | h <;> subst h <;> refine ⟨?_, ?_, ?_, ?_⟩ <;>
      decide

/-- Witness for C10 at a concrete state and code. -/
theorem get_redeem_frame_witness :
    (getRedeemStatus initState "NASSR-MANE-STAR-2025").2 = initState ∧
    (getRedeemStatus initState "NASSR-MANE-STAR-2025").1 =
      { statusCode := 200,
        body := [("playerName", .str "ساديو ماني"),
                 ("sats", .num 3600000),
                 ("redeemed", .jbool false)] } := by
  have h := get_redeem_frame initState "NASSR-MANE-STAR-2025"
  refine ⟨h.1, ?_⟩
  exact (h.2
    { playerId := 2, playerName := "ساديو ماني",
      playerNameEn := "Sadio Mané", sats := 3600000,
      redeemed := false, redeemedAt := none, redeemedTo := none }
    (by decide)).1

-- ============================================
-- applyIpn characterization lemmas
-- ============================================

/-- Does the payload target an order this instance knows? -/
def knownOrder (payload : Jobj) (st : SysState) : Bool :=
  match orderKey payload with
  | none => false
  | some oid => (findVal st.orders oid).isSome

theorem sysStateExt {a b : SysState} (ho : a.orders = b.orders)
    (hc : a.redeemCodes = b.redeemCodes) (hp : a.players = b.players) :
    a = b := by
  cases a
  cases b
  simp_all

theorem applyIpn_noKey (payload : Jobj) (st : SysState)
    (hk : orderKey payload = none) : applyIpn payload st = st := by
  simp only [applyIpn, hk]

theorem applyIpn_unknownOrder (payload : Jobj) (st : SysState) (oid : String)
    (hk : orderKey payload = some oid)
    (hf : findVal st.orders oid = none) : applyIpn payload st = st := by
  simp only [applyIpn, hk, hf]

theorem applyIpn_not_known (payload : Jobj) (st : SysState)
    (h : knownOrder payload st = false) : applyIpn payload st = st := by
  cases hk : orderKey payload with
  | none => exact applyIpn_noKey payload st hk
  | some oid =>
    simp only [knownOrder, hk] at h
    cases hfv : findVal st.orders oid with
    | none => exact applyIpn_unknownOrder payload st oid hk hfv
    | some v =>
      rw [hfv] at h
      simp at h

theorem applyIpn_orders (payload : Jobj) (st : SysState) (oid : String)
    (order : Order) (hk : orderKey payload = some oid)
    (hf : findVal st.orders oid = some order) :
    (applyIpn payload st).orders =
      setVal st.orders oid
        { order with status := getField payload "payment_status",
                     actuallyPaid := getField payload "actually_paid" } := by
  simp only [applyIpn, hk, hf]
  by_cases ht : isTerminalStatus (getField payload "payment_status")
  · simp [ht]
  · simp [ht]

theorem applyIpn_players_terminal (payload : Jobj) (st : SysState)
    (oid : String) (order : Order) (hk : orderKey payload = some oid)
    (hf : findVal st.orders oid = some order)
    (ht : isTerminalStatus (getField payload "payment_status") = true) :
    (applyIpn payload st).players = markSoldFirst st.players order.playerId := by
  simp only [applyIpn, hk, hf]
  simp [ht]

theorem applyIpn_players_nonterminal (payload : Jobj) (st : SysState)
    (oid : String) (order : Order) (hk : orderKey payload = some oid)
    (hf : findVal st.orders oid = some order)
    (ht : isTerminalStatus (getField payload "payment_status") = false) :
    (applyIpn payload st).players = st.players := by
  simp only [applyIpn, hk, hf]
  simp [ht]

theorem applyIpn_redeemCodes (payload : Jobj) (st : SysState) :
    (applyIpn payload st).redeemCodes = st.redeemCodes := by
  cases hk : orderKey payload with
  | none => rw [applyIpn_noKey payload st hk]
  | some oid =>
    cases hf : findVal st.orders oid with
    | none => rw [applyIpn_unknownOrder payload st oid hk hf]
    | some order =>
      simp only [applyIpn, hk, hf]
      by_cases ht : isTerminalStatus (getField payload "payment_status")
      · simp [ht]
      · simp [ht]

theorem applyIpn_idem (payload : Jobj) (st : SysState) :
    applyIpn payload (applyIpn payload st) = applyIpn payload st := by
  cases hk : orderKey payload with
  | none => simp [applyIpn_noKey payload _ hk]
  | some oid =>
    cases hf : findVal st.orders oid with
    | none => simp [applyIpn_unknownOrder payload st oid hk hf]
    | some order =>
      have ho1 := applyIpn_orders payload st oid order hk hf
      have hf1 : findVal (applyIpn payload st).orders oid =
          some { order with status := getField payload "payment_status",
                            actuallyPaid := getField payload "actually_paid" } := by
        rw [ho1]
        exact findVal_setVal_self _ _ _
      apply sysStateExt
      · rw [applyIpn_orders payload (applyIpn payload st) oid _ hk hf1, ho1]
        exact setVal_setVal_self _ _ _ _
      · rw [applyIpn_redeemCodes, applyIpn_redeemCodes]
      · by_cases ht : isTerminalStatus (getField payload "payment_status") = true
        · rw [applyIpn_players_terminal payload (applyIpn payload st) oid _
            hk hf1 ht, applyIpn_players_terminal payload st oid order hk hf ht]
          exact markSoldFirst_idem _ _
        · rw [Bool.not_eq_true] at ht
          rw [applyIpn_players_nonterminal payload (applyIpn payload st) oid _
            hk hf1 ht, applyIpn_players_nonterminal payload st oid order hk hf ht]

-- ============================================
-- Concrete IPN inputs used by the witnesses
-- ============================================

/-- A stored order used by the webhook witnesses. -/
def demoOrder : Order :=
  { orderId := "NASSR-1730000000000-1", playerId := 1,
    playerName := "Cristiano Ronaldo", priceAmount := 189999,
    payCurrency := some "btc", payAmount := some (.num 1),
    payAddress := some (.str "addr"), paymentId := some (.num 77),
    status := some (.str "waiting"), redeemOption := none, customer := none,
    createdAt := "2024-10-27T00:00:00.000Z" }

/-- A state holding `demoOrder`. -/
def demoState : SysState :=
  { orders := [("NASSR-1730000000000-1", demoOrder)],
    redeemCodes := initRedeemCodes, players := initPlayers }

/-- A terminal (`confirmed`) webhook payload for `demoOrder`. -/
def demoPayloadConfirmed : Jobj :=
  [("payment_status", .str "confirmed"),
   ("order_id", .str "NASSR-1730000000000-1"),
   ("actually_paid", .num 1), ("pay_amount", .num 1)]

-- ============================================
-- Claim theorems: webhook processing
-- ============================================

/-- C2: for a known order, a webhook unconditionally overwrites `status`
and `actuallyPaid` with the delivered values (last write wins, no
sequence/timestamp comparison); a terminal status (`confirmed`/`finished`)
additionally sets the corresponding catalog item's `sold` flag to true; and
processing the same delivery again is a no-op (idempotent). -/
theorem ipn_last_write_wins :
    (∀ (payload : Jobj) (st : SysState) (oid : String) (order : Order),
       orderKey payload = some oid → findVal st.orders oid = some order →
       findVal (applyIpn payload st).orders oid =
         some { order with status := getField payload "payment_status",
                           actuallyPaid := getField payload "actually_paid" } ∧
       (isTerminalStatus (getField payload "payment_status") = true →
         ∀ b : Bool, soldOf st.players order.playerId = some b →
           soldOf (applyIpn payload st).players order.playerId = some true))
    ∧ (∀ (pA pB : Jobj) (st : SysState) (oid : String) (order : Order),
       orderKey pA = some oid → orderKey pB = some oid →
       findVal st.orders oid = some order →
       (findVal (applyIpn pB (applyIpn pA st)).orders oid).map Order.status =
         some (getField pB "payment_status") ∧
       (findVal (applyIpn pB (applyIpn pA st)).orders oid).map
           Order.actuallyPaid =
         some (getField pB "actually_paid"))
    ∧ (∀ (payload : Jobj) (st : SysState),
        applyIpn payload (applyIpn payload st) = applyIpn payload st) := by
  refine ⟨?_, ?_, applyIpn_idem⟩
  · intro payload st oid order hk hf
    constructor
    · rw [applyIpn_orders payload st oid order hk hf]
      exact findVal_setVal_self _ _ _
    · intro ht b hb
      rw [applyIpn_players_terminal payload st oid order hk hf ht]
      exact soldOf_markSoldFirst_self _ _ b hb
  · intro pA pB st oid order hkA hkB hf
    have hfA : findVal (applyIpn pA st).orders oid =
        some { order with status := getField pA "payment_status",
                          actuallyPaid := getField pA "actually_paid" } := by
      rw [applyIpn_orders pA st oid order hkA hf]
      exact findVal_setVal_self _ _ _
    have hfB : findVal (applyIpn pB (applyIpn pA st)).orders oid =
        some { { order with status := getField pA "payment_status",
                            actuallyPaid := getField pA "actually_paid" } with
                status := getField pB "payment_status",
                actuallyPaid := getField pB "actually_paid" } := by
      rw [applyIpn_orders pB (applyIpn pA st) oid _ hkB hfA]
      exact findVal_setVal_self _ _ _
    rw [hfB]
    exact ⟨rfl, rfl⟩

/-- Witness for C2: a `confirmed` webhook on a concrete stored order
overwrites its fields, marks card 1 sold, and is idempotent. -/
theorem ipn_last_write_wins_witness :
    findVal (applyIpn demoPayloadConfirmed demoState).orders
        "NASSR-1730000000000-1" =
      some { demoOrder with status := some (.str "confirmed"),
                            actuallyPaid := some (.num 1) } ∧
    soldOf (applyIpn demoPayloadConfirmed demoState).players 1 = some true ∧
    applyIpn demoPayloadConfirmed (applyIpn demoPayloadConfirmed demoState) =
      applyIpn demoPayloadConfirmed demoState := by
  have h := ipn_last_write_wins.1 demoPayloadConfirmed demoState
    "NASSR-1730000000000-1" demoOrder (by decide) (by decide)
  exact ⟨h.1, h.2 (by decide) false (by decide),
    ipn_last_write_wins.2.2 demoPayloadConfirmed demoState⟩

theorem ipnPost_accept (secret : String) (hmac : String → String → String)
    (receivedSig : Option String) (payload : Jobj) (st : SysState)
    (hsig : receivedSig = some (hmac secret (sortedPayloadString payload))) :
    ipnPost secret hmac receivedSig payload st = (.ack, applyIpn payload st) := by
  by_cases hs : secret = ""
  · simp [ipnPost, hs]
  · simp [ipnPost, hs, verifyIpnSig, hsig]

theorem ipnPost_reject (secret : String) (hmac : String → String → String)
    (receivedSig : Option String) (payload : Jobj) (st : SysState)
    (hs : secret ≠ "")
    (hsig : receivedSig ≠ some (hmac secret (sortedPayloadString payload))) :
    ipnPost secret hmac receivedSig payload st = (.invalidSignature, st) := by
  simp [ipnPost, hs, verifyIpnSig, hsig]

theorem ipnPost_noSecret (hmac : String → String → String)
    (receivedSig : Option String) (payload : Jobj) (st : SysState) :
    ipnPost "" hmac receivedSig payload st = (.ack, applyIpn payload st) := by
  simp [ipnPost]

/-- C3: with a non-empty secret, a webhook is rejected (HTTP 400, state
untouched) exactly when the `x-nowpayments-sig` header differs from the hex
HMAC-SHA512 of the sorted-key JSON serialization of the payload; a matching
header is accepted and processed; with an empty/unset secret every payload
is accepted and processed. -/
theorem ipn_signature_verification :
    (∀ (secret : String) (hmac : String → String → String)
       (receivedSig : Option String) (payload : Jobj) (st : SysState),
       secret ≠ "" →
       ((ipnPost secret hmac receivedSig payload st =
           (.invalidSignature, st) ↔
         receivedSig ≠ some (hmac secret (sortedPayloadString payload))) ∧
        (receivedSig = some (hmac secret (sortedPayloadString payload)) →
          ipnPost secret hmac receivedSig payload st =
            (.ack, applyIpn payload st)) ∧
        IpnResult.statusCode .invalidSignature = 400))
    ∧ (∀ (hmac : String → String → String) (receivedSig : Option String)
        (payload : Jobj) (st : SysState),
        ipnPost "" hmac receivedSig payload st =
          (.ack, applyIpn payload st)) := by
  constructor
  · intro secret hmac receivedSig payload st hs
    refine ⟨⟨?_, ?_⟩, ?_, rfl⟩
    · intro h hsig
      rw [ipnPost_accept secret hmac receivedSig payload st hsig] at h
      simp at h
    · intro hsig
      exact ipnPost_reject secret hmac receivedSig payload st hs hsig
    · intro hsig
      exact ipnPost_accept secret hmac receivedSig payload st hsig
  · exact ipnPost_noSecret

/-- Witness for C3: with secret `"s"` and a concrete HMAC stand-in, a wrong
header is rejected with the state untouched, and the matching header is
accepted; with an empty secret the same payload is processed unverified. -/
theorem ipn_signature_verification_witness :
    ipnPost "s" (fun k m => k ++ ":" ++ m) (some "bad")
        demoPayloadConfirmed demoState = (.invalidSignature, demoState) ∧
    ipnPost "s" (fun k m => k ++ ":" ++ m)
        (some ("s:" ++ sortedPayloadString demoPayloadConfirmed))
        demoPayloadConfirmed demoState =
      (.ack, applyIpn demoPayloadConfirmed demoState) ∧
    ipnPost "" (fun k m => k ++ ":" ++ m) none demoPayloadConfirmed
        demoState = (.ack, applyIpn demoPayloadConfirmed demoState) := by
  have h := ipn_signature_verification.1 "s" (fun k m => k ++ ":" ++ m)
    (some "bad") demoPayloadConfirmed demoState (by decide)
  have h2 := ipn_signature_verification.1 "s" (fun k m => k ++ ":" ++ m)
    (some ("s:" ++ sortedPayloadString demoPayloadConfirmed))
    demoPayloadConfirmed demoState (by decide)
  exact ⟨h.1.2 (by decide), h2.2.1 rfl,
    ipn_signature_verification.2 (fun k m => k ++ ":" ++ m) none
      demoPayloadConfirmed demoState⟩

/-- C4: a webhook for an unknown `order_id` changes no state; when it passes
(or skips) verification it is acknowledged with HTTP 200 `{success: true}`
and creates no order record. -/
theorem ipn_unknown_order_ack :
    ∀ (secret : String) (hmac : String → String → String)
      (receivedSig : Option String) (payload : Jobj) (st : SysState),
      knownOrder payload st = false →
      applyIpn payload st = st ∧
      ((secret = "" ∨
          receivedSig = some (hmac secret (sortedPayloadString payload))) →
        ipnPost secret hmac receivedSig payload st = (.ack, st) ∧
        IpnResult.statusCode .ack = 200) := by
  intro secret hmac receivedSig payload st h
  have hst := applyIpn_not_known payload st h
  refine ⟨hst, ?_⟩
  rintro (hsec | hsig)
  · subst hsec
    rw [ipnPost_noSecret, hst]
    exact ⟨rfl, rfl⟩
  · rw [ipnPost_accept secret hmac receivedSig payload st hsig, hst]
    exact ⟨rfl, rfl⟩

/-- Witness for C4: the demo payload targets an order `initState` does not
have; it is acknowledged and the state (empty order map included) is
unchanged. -/
theorem ipn_unknown_order_ack_witness :
    applyIpn demoPayloadConfirmed initState = initState ∧
    ipnPost "" (fun k m => k ++ ":" ++ m) none demoPayloadConfirmed
      initState = (.ack, initState) := by
  have h := ipn_unknown_order_ack "" (fun k m => k ++ ":" ++ m) none
    demoPayloadConfirmed initState (by decide)
  exact ⟨h.1, (h.2 (Or.inl rfl)).1⟩

-- ============================================
-- Creation / step lemmas
-- ============================================

theorem createPayment_players (st : SysState) (now : Nat) (nowIso : String)
    (pid : Option Jval) (cur : Option String) (ro : Option Jval)
    (cust : Option Jobj) (gw : GatewayResult PaymentData) :
    (createPayment st now nowIso pid cur ro cust gw).2.1.players =
      st.players := by
  unfold createPayment
  split
  · rfl
  · split
    · rfl
    · split
      · rfl
      · split
        · rfl
        · split
          · rfl
          · rfl

theorem createInvoice_players (st : SysState) (now : Nat) (nowIso : String)
    (pid : Option Jval) (ro : Option Jval) (cust : Option Jobj)
    (gw : GatewayResult InvoiceData) :
    (createInvoice st now nowIso pid ro cust gw).2.1.players =
      st.players := by
  unfold createInvoice
  split
  · rfl
  · split
    · rfl
    · split
      · rfl
      · rfl

theorem getRedeemStatus_snd (st : SysState) (raw : String) :
    (getRedeemStatus st raw).2 = st := by
  cases hf : findVal st.redeemCodes (normalizeCode raw) with
  | none => simp [getRedeemStatus, hf]
  | some d => simp [getRedeemStatus, hf]

theorem ipnPost_snd (secret : String) (hmac : String → String → String)
    (receivedSig : Option String) (payload : Jobj) (st : SysState) :
    (ipnPost secret hmac receivedSig payload st).2 = st ∨
    (ipnPost secret hmac receivedSig payload st).2 = applyIpn payload st := by
  by_cases hs : secret = ""
  · subst hs
    rw [ipnPost_noSecret]
    exact Or.inr rfl
  · by_cases hsig : receivedSig =
        some (hmac secret (sortedPayloadString payload))
    · rw [ipnPost_accept secret hmac receivedSig payload st hsig]
      exact Or.inr rfl
    · rw [ipnPost_reject secret hmac receivedSig payload st hs hsig]
      exact Or.inl rfl

theorem soldOf_applyIpn_mono (payload : Jobj) (st : SysState) (pid : Nat)
    (h : soldOf st.players pid = some true) :
    soldOf (applyIpn payload st).players pid = some true := by
  cases hk : orderKey payload with
  | none =>
    rw [applyIpn_noKey payload st hk]
    exact h
  | some oid =>
    cases hf : findVal st.orders oid with
    | none =>
      rw [applyIpn_unknownOrder payload st oid hk hf]
      exact h
    | some order =>
      by_cases ht : isTerminalStatus (getField payload "payment_status") = true
      · rw [applyIpn_players_terminal payload st oid order hk hf ht]
        exact soldOf_markSoldFirst_mono st.players order.playerId pid h
      · rw [Bool.not_eq_true] at ht
        rw [applyIpn_players_nonterminal payload st oid order hk hf ht]
        exact h

theorem soldOf_step_mono (st : SysState) (op : Op) (pid : Nat)
    (h : soldOf st.players pid = some true) :
    soldOf (step st op).players pid = some true := by
  cases op with
  | opCreatePayment now nowIso pid2 cur ro cust gw =>
    rw [step, createPayment_players]
    exact h
  | opCreateInvoice now nowIso pid2 ro cust gw =>
    rw [step, createInvoice_players]
    exact h
  | opIpn secret hmac sig payload =>
    rw [step]
    rcases ipnPost_snd secret hmac sig payload st with hsnd | hsnd <;>
      rw [hsnd]
    · exact h
    · exact soldOf_applyIpn_mono payload st pid h
  | opRedeem inv =>
    rw [step]
    exact h
  | opGetRedeem raw =>
    rw [step, getRedeemStatus_snd]
    exact h
  | opGetOrder oid =>
    rw [step]
    exact h
  | opGetCards =>
    rw [step]
    exact h

-- ============================================
-- Claim theorems: sold monotonicity, creation
-- ============================================

/-- C7: across any sequence of requests (creations, webhooks, redemptions,
reads), a catalog item's `sold` flag never reverts from true to false. -/
theorem sold_never_reverts :
    ∀ (ops : List Op) (st : SysState) (pid : Nat),
      soldOf st.players pid = some true →
      soldOf (runOps st ops).players pid = some true := by
  intro ops
  induction ops with
  | nil =>
    intro st pid h
    exact h
  | cons op rest ih =>
    intro st pid h
    rw [runOps]
    exact ih (step st op) pid (soldOf_step_mono st op pid h)

/-- Witness for C7: item 3 is seeded `sold = true` and remains sold after a
terminal webhook, a redemption and a read. -/
theorem sold_never_reverts_witness :
    soldOf (runOps demoState
      [Op.opIpn "" (fun k m => k ++ m) none demoPayloadConfirmed,
       Op.opRedeem { call := scenarioCall, now := 1, nowIso := "a",
                     randHex := "bb" },
       Op.opGetCards]).players 3 = some true :=
  sold_never_reverts
    [Op.opIpn "" (fun k m => k ++ m) none demoPayloadConfirmed,
     Op.opRedeem { call := scenarioCall, now := 1, nowIso := "a",
                   randHex := "bb" },
     Op.opGetCards]
    demoState 3 (by decide)

/-- C8: a create-payment request for a sold item returns HTTP 400
`Card already sold`, leaves the order store (and all state) unchanged, and
issues no outbound gateway call. -/
theorem create_payment_sold_rejected :
    ∀ (st : SysState) (now : Nat) (nowIso : String) (playerId : Option Jval)
      (currency : Option String) (redeemOption : Option Jval)
      (customer : Option Jobj) (gateway : GatewayResult PaymentData)
      (p : Player),
      findPlayerByBody st.players playerId = some p → p.sold = true →
      createPayment st now nowIso playerId currency redeemOption customer
          gateway = (.alreadySold, st, false) ∧
      CreateResult.statusCode .alreadySold = 400 ∧
      CreateResult.errorMessage .alreadySold = some "Card already sold" := by
  intro st now nowIso pid cur ro cust gw p hf hs
  refine ⟨?_, rfl, rfl⟩
  simp [createPayment, hf, hs]

/-- Witness for C8: item 3 is seeded sold; a create-payment for it on the
initial state is rejected without a gateway call. -/
theorem create_payment_sold_rejected_witness :
    createPayment initState 1730000000000 "2024-10-27T00:00:00.000Z"
        (some (.num 3)) (some "btc") none
        (some [("email", .str "a@b.c")]) (.err "not called") =
      (.alreadySold, initState, false) :=
  (create_payment_sold_rejected initState 1730000000000
    "2024-10-27T00:00:00.000Z" (some (.num 3)) (some "btc") none
    (some [("email", .str "a@b.c")]) (.err "not called")
    { id := 3, name := "ايمريك لابورت", nameEn := "Aymeric Laporte",
      price := 99999, btcHundredths := 27, sold := true }
    (by decide) (by decide)).1

theorem createPayment_created (st : SysState) (now : Nat) (nowIso : String)
    (pid : Option Jval) (cur : Option String) (ro : Option Jval)
    (cust : Option Jobj) (pd : PaymentData) (p : Player)
    (hf : findPlayerByBody st.players pid = some p) (hs : p.sold = false)
    (hc : currencyMissing cur = false)
    (he : customerEmailMissing cust = false) :
    createPayment st now nowIso pid cur ro cust (.ok pd) =
      (.created (mkOrderId now p.id),
       { st with orders := (setVal st.orders (mkOrderId now p.id)
           (mkPaymentOrder (mkOrderId now p.id) p (cur.getD "") ro cust pd
             nowIso)) }, true) := by
  simp [createPayment, hf, hs, hc, he]

theorem createInvoice_created (st : SysState) (now : Nat) (nowIso : String)
    (pid : Option Jval) (ro : Option Jval) (cust : Option Jobj)
    (inv : InvoiceData) (p : Player)
    (hf : findPlayerByBody st.players pid = some p) (hs : p.sold = false) :
    createInvoice st now nowIso pid ro cust (.ok inv) =
      (.created (mkOrderId now p.id),
       { st with orders := (setVal st.orders (mkOrderId now p.id)
           (mkInvoiceOrder (mkOrderId now p.id) p ro cust inv nowIso)) },
       true) := by
  simp [createInvoice, hf, hs]

/-- C9: every stored order's id is exactly `NASSR-` + timestamp + item id
joined by hyphens (both flows), so two creations for the same item in the
same millisecond generate the same id and the second stored record
overwrites the first. -/
theorem order_id_format :
    (∀ (st : SysState) (now : Nat) (nowIso : String) (pid : Option Jval)
       (cur : Option String) (ro : Option Jval) (cust : Option Jobj)
       (pd : PaymentData) (p : Player),
       findPlayerByBody st.players pid = some p → p.sold = false →
       currencyMissing cur = false → customerEmailMissing cust = false →
       createPayment st now nowIso pid cur ro cust (.ok pd) =
         (.created (mkOrderId now p.id),
          { st with orders := (setVal st.orders (mkOrderId now p.id)
              (mkPaymentOrder (mkOrderId now p.id) p (cur.getD "") ro cust
                pd nowIso)) }, true) ∧
       mkOrderId now p.id = "NASSR-" ++ toString now ++ "-" ++ toString p.id)
    ∧ (∀ (st : SysState) (now : Nat) (nowIso : String) (pid : Option Jval)
        (ro : Option Jval) (cust : Option Jobj) (inv : InvoiceData)
        (p : Player),
        findPlayerByBody st.players pid = some p → p.sold = false →
        createInvoice st now nowIso pid ro cust (.ok inv) =
          (.created (mkOrderId now p.id),
           { st with orders := (setVal st.orders (mkOrderId now p.id)
               (mkInvoiceOrder (mkOrderId now p.id) p ro cust inv nowIso)) },
           true) ∧
        mkOrderId now p.id = "NASSR-" ++ toString now ++ "-" ++ toString p.id)
    ∧ (∀ (st : SysState) (now : Nat) (nowIso : String) (pid : Option Jval)
        (cur : Option String) (ro : Option Jval) (cust : Option Jobj)
        (pd1 pd2 : PaymentData) (p : Player),
        findPlayerByBody st.players pid = some p → p.sold = false →
        currencyMissing cur = false → customerEmailMissing cust = false →
        findVal (createPayment
            (createPayment st now nowIso pid cur ro cust (.ok pd1)).2.1
            now nowIso pid cur ro cust (.ok pd2)).2.1.orders
          (mkOrderId now p.id) =
          some (mkPaymentOrder (mkOrderId now p.id) p (cur.getD "") ro cust
            pd2 nowIso)) := by
  refine ⟨?_, ?_, ?_⟩
  · intro st now nowIso pid cur ro cust pd p hf hs hc he
    exact ⟨createPayment_created st now nowIso pid cur ro cust pd p hf hs
      hc he, rfl⟩
  · intro st now nowIso pid ro cust inv p hf hs
    exact ⟨createInvoice_created st now nowIso pid ro cust inv p hf hs, rfl⟩
  · intro st now nowIso pid cur ro cust pd1 pd2 p hf hs hc he
    have e1 := createPayment_created st now nowIso pid cur ro cust pd1 p
      hf hs hc he
    simp only [e1]
    have e2 := createPayment_created
      { st with orders := (setVal st.orders (mkOrderId now p.id)
          (mkPaymentOrder (mkOrderId now p.id) p (cur.getD "") ro cust pd1
            nowIso)) }
      now nowIso pid cur ro cust pd2 p hf hs hc he
    simp only [e2]
    rw [setVal_setVal_self]
    exact findVal_setVal_self _ _ _

/-- Demo gateway responses for the C9 witness. -/
def demoPd (n : Int) : PaymentData :=
  { pay_amount := .num 1, pay_address := .str "addr", payment_id := .num n,
    payment_status := .str "waiting",
    expiration_estimate_date := .str "2024-10-27T01:00:00.000Z" }

/-- Witness for C9: two same-millisecond creations for item 1 store the
same `NASSR-1730000000000-1` key, and the second record wins. -/
theorem order_id_format_witness :
    mkOrderId 1730000000000 1 = "NASSR-1730000000000-1" ∧
    findVal (createPayment
        (createPayment initState 1730000000000 "2024-10-27T00:00:00.000Z"
          (some (.num 1)) (some "btc") none
          (some [("email", .str "a@b.c")]) (.ok (demoPd 1))).2.1
        1730000000000 "2024-10-27T00:00:00.000Z" (some (.num 1))
        (some "btc") none (some [("email", .str "a@b.c")])
        (.ok (demoPd 2))).2.1.orders "NASSR-1730000000000-1" =
      some (mkPaymentOrder "NASSR-1730000000000-1"
        { id := 1, name := "كريستيانو رونالدو", nameEn := "Cristiano Ronaldo",
          price := 189999, btcHundredths := 75, sold := false }
        "btc" none (some [("email", .str "a@b.c")]) (demoPd 2)
        "2024-10-27T00:00:00.000Z") := by
  have h := order_id_format.2.2 initState 1730000000000
    "2024-10-27T00:00:00.000Z" (some (.num 1)) (some "btc") none
    (some [("email", .str "a@b.c")]) (demoPd 1) (demoPd 2)
    { id := 1, name := "كريستيانو رونالدو", nameEn := "Cristiano Ronaldo",
      price := 189999, btcHundredths := 75, sold := false }
    (by decide) (by decide) (by decide) (by decide)
  exact ⟨by decide, h⟩

end Alnassr
